import Mathlib

/-!
# Shallow embedding of `task_enforcer.py` (SuperManUS Task System Enforcer)

This file embeds the task-discipline state machine of
`src/task_enforcer.py` into Lean and settles the claims of the
specification against it.

Modelling conventions:
* Python strings become Lean `String`; the Python string operations
  used by the source (`lower`, `strip`, `split`, `replace`, `in`,
  `join`) are re-implemented below over `List Char` with Python's
  semantics (ASCII case folding, whitespace splitting that discards
  empty fields, substring membership).
* The persisted `SESSION_STATE.json` document is the `SessionDoc`
  component of `EnforcerState`; `load_session_state` reads it and
  `_mark_task_complete` writes it back, so the field plays the role
  of the file.
* The contents of the `work_logs` directory (externally created
  work-record files) are the `work_log_files` component; the source
  never reads this directory, which is exactly what claim C7 examines.
* `datetime.now()` is passed in as an explicit `now : String`
  parameter wherever the source consults the clock.
* Logging calls (`logger.info` / `logger.error`) have no observable
  effect on the enforcer's state and are dropped.
-/

/-- Python `needle.isPrefixOf` test on character lists (used to build
Python's substring operator `needle in hay`). -/
def charsStartsWith : List Char → List Char → Bool
  | [], _ => true
  | _ :: _, [] => false
  | a :: as, b :: bs => a == b && charsStartsWith as bs

/-- Auxiliary scan for Python's substring operator: does `needle`
occur contiguously inside the second list? -/
def charsContains (needle : List Char) : List Char → Bool
  | [] => needle.isEmpty
  | c :: cs => charsStartsWith needle (c :: cs) || charsContains needle cs

/-- Python's `needle in hay` on strings (contiguous substring test;
the empty string is a substring of everything). -/
def pyIn (needle hay : String) : Bool :=
  charsContains needle.data hay.data

/-- Python's `s.lower()` (ASCII case folding, the only case the
source's task identifiers exercise). -/
def pyLower (s : String) : String :=
  String.mk (s.data.map Char.toLower)

/-- Python's `s.strip()`: remove leading and trailing whitespace. -/
def pyStrip (s : String) : String :=
  String.mk (((s.data.dropWhile Char.isWhitespace).reverse.dropWhile Char.isWhitespace).reverse)

/-- Python's `s.replace(":", " ")` from `_extract_task_keywords`
(single-character pattern, so a character map). -/
def pyReplaceColon (s : String) : String :=
  String.mk (s.data.map (fun c => if c == ':' then ' ' else c))

/-- Generic splitter: cut the character list at every character
satisfying `p`, discarding empty fields — with `p = Char.isWhitespace`
this is Python's bare `s.split()`. `acc` holds the characters of the
current field in reverse. -/
def splitFieldsAux (p : Char → Bool) : List Char → List Char → List String
  | [], acc => if acc.isEmpty then [] else [String.mk acc.reverse]
  | c :: cs, acc =>
    if p c then
      if acc.isEmpty then splitFieldsAux p cs []
      else String.mk acc.reverse :: splitFieldsAux p cs []
    else splitFieldsAux p cs (c :: acc)

/-- Python's `s.split()` (split on whitespace runs, no empty fields). -/
def pySplitWs (s : String) : List String :=
  splitFieldsAux Char.isWhitespace s.data []

/-- Python's `sep.join(parts)`. -/
def pyJoin (sep : String) : List String → String
  | [] => ""
  | [x] => x
  | x :: xs => x ++ sep ++ pyJoin sep xs

/-- Truthiness of a looked-up proof value, as in
`req_key not in proof_data or not proof_data[req_key]`: absent keys
and empty evidence strings are falsy. -/
def pyTruthy : Option String → Bool
  | none => false
  | some s => s ≠ ""

/-- Embeds `class TaskRiskLevel(Enum)` from the source. -/
inductive TaskRiskLevel where
  | low
  | medium
  | high
deriving Repr, DecidableEq

/-- The `.value` string of each `TaskRiskLevel` member. -/
def TaskRiskLevel.value : TaskRiskLevel → String
  | .low => "low"
  | .medium => "medium"
  | .high => "high"

/-- Embeds `class ValidationResult(Enum)` from the source. -/
inductive ValidationResult where
  | approved
  | rejected
  | pending
  | blocked
deriving Repr, DecidableEq

/-- The `.value` string of each `ValidationResult` member. -/
def ValidationResult.value : ValidationResult → String
  | .approved => "approved"
  | .rejected => "rejected"
  | .pending => "pending_human_review"
  | .blocked => "blocked"

/-- The persisted registry document (`SESSION_STATE.json`): the
`active_tasks` and `completed_tasks` sequences the core interprets
(free-form metadata keys are passed through untouched and carry no
behaviour, so they are not modelled). -/
structure SessionDoc where
  active_tasks : List String
  completed_tasks : List String
deriving Repr, DecidableEq

/-- The `self.current_task` dictionary built by `set_current_task`. -/
structure CurrentTask where
  id : String
  start_time : String
  status : String
  risk_level : TaskRiskLevel
deriving Repr, DecidableEq

/-- One entry of `self.validation_history` (the `action_log` dict
appended by `validate_action`). -/
structure ActionLog where
  timestamp : String
  task_id : String
  action : String
  justification : String
  status : String
deriving Repr, DecidableEq

/-- Full state of a `TaskSystemEnforcer` instance together with its
environment: the persisted session document, the set of record files
present in `work_logs/` (created externally; the enforcer never reads
it), and the in-memory session fields. -/
structure EnforcerState where
  session : SessionDoc
  work_log_files : List String
  current_task : Option CurrentTask
  work_log_active : Bool
  validation_history : List ActionLog
deriving Repr, DecidableEq

/-- Keyword list `high_risk_keywords` from `_assess_task_risk`. -/
def high_risk_keywords : List String :=
  ["deploy", "security", "auth", "database", "kubernetes", "production"]

/-- Keyword list `medium_risk_keywords` from `_assess_task_risk`. -/
def medium_risk_keywords : List String :=
  ["implement", "refactor", "api", "service", "docker"]

/-- Embeds `_assess_task_risk`: lower-case the identifier and scan for
substring membership, HIGH keywords first, then MEDIUM, else LOW. -/
def assess_task_risk (task_id : String) : TaskRiskLevel :=
  let task_lower := pyLower task_id
  if high_risk_keywords.any (fun k => pyIn k task_lower) then .high
  else if medium_risk_keywords.any (fun k => pyIn k task_lower) then .medium
  else .low

/-- Embeds `get_active_tasks`: read `active_tasks` from the session document. -/
def get_active_tasks (s : EnforcerState) : List String :=
  s.session.active_tasks

/-- Embeds `set_current_task`: refuse (`BLOCKED`, no state change) unless the
identifier is an exact element of the active list; otherwise install
the selection record (silently replacing any prior selection). -/
def set_current_task (s : EnforcerState) (task_id : String) (now : String) :
    ValidationResult × EnforcerState :=
  if (get_active_tasks s).contains task_id then
    let ct : CurrentTask :=
      { id := task_id, start_time := now, status := "active",
        risk_level := assess_task_risk task_id }
    (.approved, { s with current_task := some ct })
  else
    (.blocked, s)

/-- Embeds `start_work_log`: `BLOCKED` without a current task, else set
`work_log_active := true`. The source consults neither
`work_log_files` nor anything else about the filesystem here. -/
def start_work_log (s : EnforcerState) : ValidationResult × EnforcerState :=
  match s.current_task with
  | none => (.blocked, s)
  | some _ => (.approved, { s with work_log_active := true })

/-- Embeds `_extract_task_keywords`: lower-case, turn colons into spaces,
split on whitespace, keep tokens longer than 3 characters. -/
def extract_task_keywords (task_id : String) : List String :=
  (pySplitWs (pyReplaceColon (pyLower task_id))).filter (fun w => w.length > 3)

/-- Embeds `validate_action` (result and state; the human-readable message
channel carries no state and no claim concerns it, so it is omitted).
Gate order as in the source: no task → `BLOCKED`; work log inactive →
`BLOCKED`; then the audit record is appended with status `"proposed"`
before the justification checks; short justification → `REJECTED`;
no task keyword in the lowered justification → `REJECTED`; else
`APPROVED`. -/
def validate_action (s : EnforcerState) (action_description justification : String)
    (now : String) : ValidationResult × EnforcerState :=
  match s.current_task with
  | none => (.blocked, s)
  | some ct =>
    if !s.work_log_active then (.blocked, s)
    else
      let entry : ActionLog :=
        { timestamp := now, task_id := ct.id, action := action_description,
          justification := justification, status := "proposed" }
      let s' := { s with validation_history := s.validation_history ++ [entry] }
      if (pyStrip justification).length < 20 then (.rejected, s')
      else if !((extract_task_keywords ct.id).any
          (fun k => pyIn k (pyLower justification))) then (.rejected, s')
      else (.approved, s')

/-- Requirement dict `base_requirements` from `require_completion_proof`, in the
source's insertion order (key, requirement description). -/
def base_requirements : List (String × String) :=
  [("file_evidence", "List all files created/modified with ls -la"),
   ("functional_test", "Provide command that demonstrates functionality"),
   ("error_check", "Show no errors in logs or output")]

/-- The pairs `update`d into the requirements dict when the risk level
is exactly MEDIUM. -/
def medium_requirements : List (String × String) :=
  [("integration_test", "Test integration with existing system"),
   ("syntax_validation", "Validate syntax of all code changes")]

/-- The pairs `update`d into the requirements dict when the risk level
is exactly HIGH. -/
def high_requirements : List (String × String) :=
  [("comprehensive_testing", "Full test suite execution"),
   ("security_check", "Security implications reviewed"),
   ("human_review_required", "Human approval needed for completion")]

/-- The requirements dict built by `require_completion_proof` for a
given risk level: the base dict, then `update` with the MEDIUM pairs
only under `if risk_level == TaskRiskLevel.MEDIUM`, then with the HIGH
pairs only under `if risk_level == TaskRiskLevel.HIGH` (two separate
equality tests in the source, not a cumulative cascade). `update` with
fresh keys appends in insertion order. -/
def requirements_for (risk_level : TaskRiskLevel) : List (String × String) :=
  base_requirements
    ++ (if risk_level = .medium then medium_requirements else [])
    ++ (if risk_level = .high then high_requirements else [])

/-- Embeds `_generate_validation_commands`. -/
def generate_validation_commands (task_id : String) : List String :=
  let commands :=
    ["git status --porcelain  # Check file changes",
     "find . -name \x27*.py\x27 -exec python -m py_compile \x7b\x7d \\;  # Syntax check"]
  let task_lower := pyLower task_id
  let commands := commands ++
    (if pyIn "docker" task_lower then
      ["docker-compose config --quiet  # Validate Docker config"] else [])
  let commands := commands ++
    (if pyIn "test" task_lower then ["python -m pytest -v  # Run tests"] else [])
  commands ++
    (if pyIn "kubernetes" task_lower || pyIn "k8s" task_lower then
      ["kubectl apply --dry-run=client --validate=true -f k8s/  # Validate K8s"]
     else [])

/-- The dictionary returned by `require_completion_proof` when a task
is current. -/
structure CompletionProofSpec where
  task_id : String
  risk_level : String
  requirements : List (String × String)
  validation_commands : List String
deriving Repr, DecidableEq

/-- Embeds `require_completion_proof`: `none` models the `{"error": "No
active task"}` dictionary; otherwise the requirements record derived
from the current task's risk level. -/
def require_completion_proof (s : EnforcerState) : Option CompletionProofSpec :=
  match s.current_task with
  | none => none
  | some ct =>
    some { task_id := ct.id
           risk_level := ct.risk_level.value
           requirements := requirements_for ct.risk_level
           validation_commands := generate_validation_commands ct.id }

/-- Embeds `_mark_task_complete`: re-load the session document, move the
current task id from `active_tasks` to `completed_tasks` when present
(Python `list.remove` = first occurrence, `append` at the end), write
the document back, and reset `current_task`/`work_log_active`. -/
def mark_task_complete (s : EnforcerState) (ct : CurrentTask) : EnforcerState :=
  let session := s.session
  let session :=
    if session.active_tasks.contains ct.id then
      { session with
        active_tasks := session.active_tasks.erase ct.id,
        completed_tasks := session.completed_tasks ++ [ct.id] }
    else session
  { s with session := session, current_task := none, work_log_active := false }

/-- A proof package: the `proof_data` dict, modelled as an association
list from requirement key to evidence string (first binding wins on
lookup, as in a dict). -/
abbrev ProofData := List (String × String)

/-- Embeds `validate_completion`: `BLOCKED` without a current task; collect
the requirement descriptions whose key is absent from `proof_data` or
mapped to a falsy value, and reject listing them; `PENDING` for HIGH
risk; otherwise `_mark_task_complete` and approve. Returns (result,
message, state). -/
def validate_completion (s : EnforcerState) (proof_data : ProofData) :
    ValidationResult × String × EnforcerState :=
  match s.current_task with
  | none => (.blocked, "No active task to complete", s)
  | some ct =>
    let requirements := requirements_for ct.risk_level
    let missing_proof :=
      (requirements.filter (fun kv => !pyTruthy (proof_data.lookup kv.1))).map
        (fun kv => kv.2)
    if !missing_proof.isEmpty then
      (.rejected, "âŒ Missing proof for: " ++ pyJoin ", " missing_proof, s)
    else if ct.risk_level = .high then
      (.pending, "â³ High-risk task requires human approval", s)
    else
      (.approved, "âœ… Task completion validated and approved",
        mark_task_complete s ct)

/-- Embeds `get_status` (read-only summary). -/
def get_status (s : EnforcerState) : Option CurrentTask × Bool × Nat × Nat :=
  (s.current_task, s.work_log_active, (get_active_tasks s).length,
    s.validation_history.length)

/-! ## Spec-side definitions

The following definitions are written from the words of claim C4, not
from the source, to state the refinement the claim asserts. -/

/-- Claim C4's keyword set: "the tokens obtained from the task
identifier by splitting on whitespace/colon, lower-casing, and keeping
tokens longer than 3 characters". -/
def claimed_task_tokens (task_id : String) : List String :=
  (splitFieldsAux (fun c => c.isWhitespace || c == ':') (pyLower task_id).data []).filter
    (fun w => w.length > 3)

/-- Claim C4's decision procedure, stated verbatim: no current task →
Blocked; work log not active → Blocked; trimmed justification shorter
than 20 characters → Rejected; lower-cased justification contains none
of the task tokens as a substring → Rejected; otherwise Approved. -/
def claimed_action_decision (s : EnforcerState) (justification : String) :
    ValidationResult :=
  match s.current_task with
  | none => .blocked
  | some ct =>
    if !s.work_log_active then .blocked
    else if (pyStrip justification).length < 20 then .rejected
    else if (claimed_task_tokens ct.id).all
        (fun t => !pyIn t (pyLower justification)) then .rejected
    else .approved

/-! ## Concrete states for counterexamples and witnesses -/

/-- A session document with one LOW-risk and one HIGH-risk task. -/
def sampleDoc : SessionDoc :=
  { active_tasks := ["T2: update docs", "T9: deploy production gateway"],
    completed_tasks := ["SETUP.1: init repo"] }

/-- A current-task record for the HIGH-risk task
"T9: deploy production gateway". -/
def highTask : CurrentTask :=
  { id := "T9: deploy production gateway", start_time := "2025-09-04T10:00:00",
    status := "active", risk_level := assess_task_risk "T9: deploy production gateway" }

/-- A current-task record for the LOW-risk task "T2: update docs". -/
def lowTask : CurrentTask :=
  { id := "T2: update docs", start_time := "2025-09-04T10:00:00",
    status := "active", risk_level := assess_task_risk "T2: update docs" }

/-- State with the HIGH-risk task selected and the work log active. -/
def highState : EnforcerState :=
  { session := sampleDoc, work_log_files := [], current_task := some highTask,
    work_log_active := true, validation_history := [] }

/-- State with the LOW-risk task selected and the work log active. -/
def lowState : EnforcerState :=
  { session := sampleDoc, work_log_files := [], current_task := some lowTask,
    work_log_active := true, validation_history := [] }

/-- A complete proof package for the HIGH tier (all keys the source
requires for HIGH, each mapped to non-empty evidence). -/
def highProof : ProofData :=
  [("file_evidence", "ls -la output"), ("functional_test", "ran main"),
   ("error_check", "clean logs"), ("comprehensive_testing", "pytest all green"),
   ("security_check", "reviewed"), ("human_review_required", "requested")]

/-- A complete proof package for the LOW tier. -/
def lowProof : ProofData :=
  [("file_evidence", "ls -la output"), ("functional_test", "ran main"),
   ("error_check", "clean logs")]

/-- State with the LOW-risk task selected, the work log not yet
active, and no record file present in `work_logs/`. -/
def noRecordState : EnforcerState :=
  { session := sampleDoc, work_log_files := [], current_task := some lowTask,
    work_log_active := false, validation_history := [] }

/-! ## Helper lemmas -/

theorem charsStartsWith_append_self (n b : List Char) :
    charsStartsWith n (n ++ b) = true := by
  induction n with
  | nil => rfl
  | cons a as ih => simp [charsStartsWith, ih]

theorem charsContains_nil_needle (h : List Char) : charsContains [] h = true := by
  cases h <;> simp [charsContains, charsStartsWith, List.isEmpty]

theorem charsContains_cons (n : List Char) (c : Char) (t : List Char)
    (h : charsContains n t = true) : charsContains n (c :: t) = true := by
  simp [charsContains, h]

theorem charsContains_append (a n b : List Char) :
    charsContains n (a ++ n ++ b) = true := by
  induction a with
  | nil =>
    cases n with
    | nil => simpa using charsContains_nil_needle b
    | cons x xs =>
      have h1 : charsStartsWith (x :: xs) (x :: (xs ++ b)) = true := by
        simpa using charsStartsWith_append_self (x :: xs) b
      simp [charsContains, h1]
  | cons y ys ih =>
    have hys : charsContains n (ys ++ n ++ b) = true := ih
    simpa using charsContains_cons n y (ys ++ n ++ b) hys

theorem splitFieldsAux_map (p q : Char → Bool) (f : Char → Char)
    (hpq : ∀ c, p (f c) = q c) (hid : ∀ c, q c = false → f c = c)
    (l acc : List Char) :
    splitFieldsAux p (l.map f) acc = splitFieldsAux q l acc := by
  induction l generalizing acc with
  | nil => rfl
  | cons c cs ih =>
    show splitFieldsAux p (f c :: cs.map f) acc = splitFieldsAux q (c :: cs) acc
    unfold splitFieldsAux
    rw [hpq c]
    cases hq : q c with
    | true => simp only [if_pos, ih]
    | false => simp only [if_neg, Bool.false_eq_true, hid c hq, ih]

theorem pyIn_of_infix (needle hay : String) (a b : List Char)
    (h : hay.data = a ++ needle.data ++ b) : pyIn needle hay = true := by
  unfold pyIn
  rw [h]
  exact charsContains_append a needle.data b

theorem pyJoin_mem_infix (sep x : String) (l : List String) (hx : x ∈ l) :
    ∃ a b, (pyJoin sep l).data = a ++ x.data ++ b := by
  induction l with
  | nil => cases hx
  | cons y ys ih =>
    rcases List.mem_cons.mp hx with hxy | hmem
    · subst hxy
      cases ys with
      | nil => exact ⟨[], [], by simp [pyJoin]⟩
      | cons z zs =>
        exact ⟨[], sep.data ++ (pyJoin sep (z :: zs)).data, by simp [pyJoin]⟩
    · obtain ⟨a, b, hab⟩ := ih hmem
      cases ys with
      | nil => cases hmem
      | cons z zs =>
        exact ⟨y.data ++ sep.data ++ a, b, by simp [pyJoin, hab]⟩

theorem pyIn_append_join (pre sep x : String) (l : List String) (hx : x ∈ l) :
    pyIn x (pre ++ pyJoin sep l) = true := by
  obtain ⟨a, b, hab⟩ := pyJoin_mem_infix sep x l hx
  exact pyIn_of_infix x _ (pre.data ++ a) b (by simp [hab])

theorem splitFieldsAux_map_colon (l acc : List Char) :
    splitFieldsAux Char.isWhitespace
        (l.map (fun c => if c == ':' then ' ' else c)) acc
      = splitFieldsAux (fun c => c.isWhitespace || c == ':') l acc := by
  refine splitFieldsAux_map _ _ _ ?_ ?_ l acc
  · intro c
    by_cases hc : c == ':'
    · have hc' : c = ':' := eq_of_beq hc
      subst hc'
      decide
    · simp [hc]
  · intro c hq
    have : (c == ':') = false := by
      cases h : (c == ':') with
      | false => rfl
      | true => rw [h] at hq; simp at hq
    simp [this]

theorem extract_task_keywords_eq_claimed (task_id : String) :
    extract_task_keywords task_id = claimed_task_tokens task_id := by
  unfold extract_task_keywords claimed_task_tokens pySplitWs pyReplaceColon
  rw [show (String.mk ((pyLower task_id).data.map
        (fun c => if c == ':' then ' ' else c))).data
      = (pyLower task_id).data.map (fun c => if c == ':' then ' ' else c)
    from rfl]
  rw [splitFieldsAux_map_colon]

theorem not_any_eq_all_not (l : List String) (p : String → Bool) :
    (!l.any p) = l.all fun x => !p x := by
  induction l with
  | nil => rfl
  | cons x xs ih => simp [List.any_cons, List.all_cons, ih]

/-! ## Claim theorems -/

/-- C4: `validate_action(description, justification)` implements exactly
the claimed decision procedure: Blocked without a current task, Blocked
with an inactive work log, Rejected for a trimmed justification under 20
characters, Rejected when the lower-cased justification contains none of
the task identifier's >3-character tokens (split on whitespace/colon,
lower-cased, substring match), and Approved otherwise. -/
theorem validate_action_implements_claimed_decision
    (s : EnforcerState) (action_description justification now : String) :
    (validate_action s action_description justification now).1
      = claimed_action_decision s justification := by
  unfold validate_action claimed_action_decision
  cases s.current_task with
  | none => rfl
  | some ct =>
    cases hw : s.work_log_active with
    | false => rfl
    | true =>
      simp only [Bool.not_true, Bool.false_eq_true, if_false]
      by_cases h20 : (pyStrip justification).length < 20
      · simp [h20]
      · rw [if_neg h20, if_neg h20]
        rw [extract_task_keywords_eq_claimed, ← not_any_eq_all_not]
        cases hany : (claimed_task_tokens ct.id).any
            (fun k => pyIn k (pyLower justification)) with
        | false => rfl
        | true => rfl

/-- C1 counterexample: the task "T9: deploy production gateway" is
classified HIGH, "integration_test" is a required key for MEDIUM, yet
the HIGH tier's required-keys set from `require_completion_proof` does
not contain it — so the HIGH set is not a superset of the MEDIUM set. -/
theorem high_tier_not_superset_of_medium :
    assess_task_risk "T9: deploy production gateway" = .high ∧
    ((requirements_for .medium).map Prod.fst).contains "integration_test" = true ∧
    (require_completion_proof highState).map
      (fun r => (r.requirements.map Prod.fst).contains "integration_test")
      = some false := by decide

/-- C1 amended: for a current task whose risk tier is HIGH,
`require_completion_proof` derives exactly the baseline keys plus
HIGH's additions; MEDIUM's additions (`integration_test`,
`syntax_validation`) are absent, so the tiers are not cumulative. -/
theorem require_completion_proof_high (s : EnforcerState) (ct : CurrentTask)
    (hct : s.current_task = some ct) (hhigh : ct.risk_level = .high) :
    require_completion_proof s =
      some ⟨ct.id, "high", base_requirements ++ high_requirements,
            generate_validation_commands ct.id⟩ ∧
    "integration_test" ∉ (base_requirements ++ high_requirements).map Prod.fst ∧
    "syntax_validation" ∉ (base_requirements ++ high_requirements).map Prod.fst := by
  refine ⟨?_, by decide, by decide⟩
  unfold require_completion_proof
  rw [hct]
  simp [requirements_for, hhigh, TaskRiskLevel.value]

/-- C1 witness: the amended statement evaluated on the concrete HIGH
state. -/
theorem require_completion_proof_high_witness :
    require_completion_proof highState =
      some ⟨highTask.id, "high", base_requirements ++ high_requirements,
            generate_validation_commands highTask.id⟩ :=
  (require_completion_proof_high highState highTask rfl (by decide)).1

/-- C5: `set_current_task` returns `BLOCKED` and leaves the state
unchanged for identifiers not in the active list, and for identifiers
in the active list it succeeds, installing a record with the
identifier, the selection timestamp and the risk tier computed from
the identifier (silently replacing any prior selection — the function
is total and raises nothing). -/
theorem set_current_task_spec (s : EnforcerState) (task_id now : String) :
    (task_id ∉ s.session.active_tasks →
      set_current_task s task_id now = (.blocked, s)) ∧
    (task_id ∈ s.session.active_tasks →
      set_current_task s task_id now =
        (.approved, { s with current_task := some ⟨task_id, now, "active", assess_task_risk task_id⟩ })) := by
  constructor
  · intro h
    simp [set_current_task, get_active_tasks, List.contains, h]
  · intro h
    simp [set_current_task, get_active_tasks, List.contains, h]

/-- C5 witness: a bogus identifier is refused without touching the
state; an exact active identifier is selected. -/
theorem set_current_task_spec_witness :
    set_current_task lowState "NOPE" "t1" = (.blocked, lowState) ∧
    set_current_task lowState "T2: update docs" "t1" =
      (.approved, { lowState with current_task := some ⟨"T2: update docs", "t1", "active", assess_task_risk "T2: update docs"⟩ }) :=
  ⟨(set_current_task_spec lowState "NOPE" "t1").1 (by decide),
   (set_current_task_spec lowState "T2: update docs" "t1").2 (by decide)⟩

/-- C7 (code divergence): with a task selected and no record file in
existence (`work_log_files = []`), `start_work_log` nevertheless
returns `APPROVED` and activates the work log; the transition is not
gated by the existence of an externally-created work-record file. -/
theorem start_work_log_ignores_record_files :
    noRecordState.current_task = some lowTask ∧
    noRecordState.work_log_files = [] ∧
    noRecordState.work_log_active = false ∧
    (start_work_log noRecordState).1 = .approved ∧
    ((start_work_log noRecordState).2).work_log_active = true ∧
    ((start_work_log noRecordState).2).work_log_files = [] := by decide

/-- C9 counterexample: a call that reaches the justification checks
and is `REJECTED` appends a record whose `status` field is the
constant "proposed" — not the outcome of the call. -/
theorem validation_history_status_not_outcome :
    (validate_action lowState "Add fancy animations" "Short" "t0").1 = .rejected ∧
    ((validate_action lowState "Add fancy animations" "Short" "t0").2).validation_history.map
      (fun e => e.status) = ["proposed"] ∧
    ValidationResult.value .rejected ≠ "proposed" := by decide

/-- C9 amended: every `validate_action` call made with a current task
and an active work log appends exactly one record carrying the
timestamp, task id, action description and justification, with the
fixed status "proposed" (not the call's outcome), whether the call is
approved or rejected. -/
theorem validate_action_appends_proposed_record (s : EnforcerState) (ct : CurrentTask)
    (a j now : String) (hct : s.current_task = some ct) (hw : s.work_log_active = true) :
    ((validate_action s a j now).2).validation_history
      = s.validation_history ++ [⟨now, ct.id, a, j, "proposed"⟩] := by
  unfold validate_action
  rw [hct]
  simp only [hw, Bool.not_true, Bool.false_eq_true, if_false]
  split
  · rfl
  · split
    · rfl
    · rfl

/-- C9 witness: the amended statement on a concrete rejected call. -/
theorem validate_action_appends_proposed_record_witness :
    ((validate_action lowState "a" "j" "t0").2).validation_history
      = lowState.validation_history ++ [⟨"t0", lowTask.id, "a", "j", "proposed"⟩] :=
  validate_action_appends_proposed_record lowState lowTask "a" "j" "t0" rfl rfl

/-- C10: selecting a task never changes the work-log gate —
`set_current_task` leaves `work_log_active` at its prior value, and
after a successful selection with the flag already true the
work-log gate of `validate_action` is satisfied (no `BLOCKED` result)
without any new work record being created. -/
theorem select_task_preserves_work_log_gate (s : EnforcerState) (task_id now : String) :
    ((set_current_task s task_id now).2).work_log_active = s.work_log_active ∧
    ((set_current_task s task_id now).1 = .approved → s.work_log_active = true →
      ∀ a j t, (validate_action (set_current_task s task_id now).2 a j t).1 ≠ .blocked) := by
  unfold set_current_task get_active_tasks
  by_cases hmem : s.session.active_tasks.contains task_id
  · rw [if_pos hmem]
    refine ⟨rfl, fun _ hw a j t => ?_⟩
    simp only [validate_action, hw, Bool.not_true, Bool.false_eq_true, if_false]
    split
    · simp
    · split
      · simp
      · simp
  · rw [if_neg hmem]
    refine ⟨rfl, fun happ _ a j t => ?_⟩
    simp at happ

/-- C10 witness: selecting the HIGH task while the work log is active
keeps the flag, and an action on the fresh selection is not blocked. -/
theorem select_task_preserves_work_log_gate_witness :
    ((set_current_task lowState "T9: deploy production gateway" "t1").2).work_log_active
      = lowState.work_log_active ∧
    (validate_action (set_current_task lowState "T9: deploy production gateway" "t1").2
      "act" "j" "t2").1 ≠ .blocked :=
  ⟨(select_task_preserves_work_log_gate lowState "T9: deploy production gateway" "t1").1,
   (select_task_preserves_work_log_gate lowState "T9: deploy production gateway" "t1").2
     (by decide) rfl "act" "j" "t2"⟩

/-- Reduction of `validate_completion` once the current task is known:
the body with the match on `current_task` resolved. -/
theorem validate_completion_eq (s : EnforcerState) (ct : CurrentTask)
    (proof_data : ProofData) (hct : s.current_task = some ct) :
    validate_completion s proof_data =
      (if !(((requirements_for ct.risk_level).filter
            (fun kv => !pyTruthy (proof_data.lookup kv.1))).map (fun kv => kv.2)).isEmpty then
        (.rejected,
          "âŒ Missing proof for: " ++ pyJoin ", "
            (((requirements_for ct.risk_level).filter
              (fun kv => !pyTruthy (proof_data.lookup kv.1))).map (fun kv => kv.2)),
          s)
       else if ct.risk_level = .high then
        (.pending, "â³ High-risk task requires human approval", s)
       else
        (.approved, "âœ… Task completion validated and approved",
          mark_task_complete s ct)) := by
  unfold validate_completion
  rw [hct]

/-- C2: with a LOW or MEDIUM current task that occurs (exactly once,
per the registry invariant) in `active_tasks`, a proof package mapping
every required key to a truthy value makes `validate_completion`
return `APPROVED`, move the identifier from `active_tasks` to the end
of `completed_tasks` in the persisted document, and reset
`current_task`/`work_log_active`. -/
theorem validate_completion_low_medium (s : EnforcerState) (ct : CurrentTask)
    (proof_data : ProofData)
    (hct : s.current_task = some ct)
    (hrisk : ct.risk_level = .low ∨ ct.risk_level = .medium)
    (hcomplete : ∀ kv ∈ requirements_for ct.risk_level,
      pyTruthy (proof_data.lookup kv.1) = true)
    (hcount : s.session.active_tasks.count ct.id = 1) :
    (validate_completion s proof_data).1 = .approved ∧
    ct.id ∉ ((validate_completion s proof_data).2.2).session.active_tasks ∧
    ((validate_completion s proof_data).2.2).session.completed_tasks
      = s.session.completed_tasks ++ [ct.id] ∧
    ((validate_completion s proof_data).2.2).current_task = none ∧
    ((validate_completion s proof_data).2.2).work_log_active = false := by
  have hmissing : (requirements_for ct.risk_level).filter
      (fun kv => !pyTruthy (proof_data.lookup kv.1)) = [] := by
    rw [List.filter_eq_nil_iff]
    intro kv hkv
    simp [hcomplete kv hkv]
  have hmem : ct.id ∈ s.session.active_tasks := by
    by_contra h
    rw [List.count_eq_zero_of_not_mem h] at hcount
    cases hcount
  have hcontains : s.session.active_tasks.contains ct.id = true := by
    simp [List.contains, hmem]
  have hne : ¬ ct.risk_level = TaskRiskLevel.high := by
    rcases hrisk with h | h <;> rw [h] <;> intro hh <;> cases hh
  have heq : validate_completion s proof_data =
      (.approved, "âœ… Task completion validated and approved",
        mark_task_complete s ct) := by
    rw [validate_completion_eq s ct proof_data hct]
    simp only [hmissing, List.map_nil, List.isEmpty_nil, Bool.not_true,
      Bool.false_eq_true, if_false, if_neg hne]
  have hactive : (mark_task_complete s ct).session.active_tasks
      = s.session.active_tasks.erase ct.id := by
    simp only [mark_task_complete, hcontains, if_true]
  have hcompleted : (mark_task_complete s ct).session.completed_tasks
      = s.session.completed_tasks ++ [ct.id] := by
    simp only [mark_task_complete, hcontains, if_true]
  rw [heq]
  refine ⟨rfl, ?_, ?_, rfl, rfl⟩
  · show ct.id ∉ (mark_task_complete s ct).session.active_tasks
    rw [hactive]
    have h0 : (s.session.active_tasks.erase ct.id).count ct.id = 0 := by
      rw [List.count_erase_self, hcount]
    exact List.count_eq_zero.mp h0
  · exact hcompleted

/-- C2 witness: completing the LOW task "T2: update docs" with the
three baseline proofs approves and moves it in the document. -/
theorem validate_completion_low_medium_witness :
    (validate_completion lowState lowProof).1 = .approved ∧
    lowTask.id ∉ ((validate_completion lowState lowProof).2.2).session.active_tasks ∧
    ((validate_completion lowState lowProof).2.2).session.completed_tasks
      = lowState.session.completed_tasks ++ [lowTask.id] ∧
    ((validate_completion lowState lowProof).2.2).current_task = none ∧
    ((validate_completion lowState lowProof).2.2).work_log_active = false :=
  validate_completion_low_medium lowState lowTask lowProof rfl
    (Or.inl (by decide)) (by decide) (by decide)

/-- C3: with a HIGH current task and a proof package mapping every
required key to a truthy value, `validate_completion` returns
`PENDING` (human review) and changes nothing at all: the whole state —
registry document included — is returned untouched. -/
theorem validate_completion_high_frame (s : EnforcerState) (ct : CurrentTask)
    (proof_data : ProofData)
    (hct : s.current_task = some ct)
    (hhigh : ct.risk_level = .high)
    (hcomplete : ∀ kv ∈ requirements_for ct.risk_level,
      pyTruthy (proof_data.lookup kv.1) = true) :
    (validate_completion s proof_data).1 = .pending ∧
    (validate_completion s proof_data).2.2 = s := by
  have hmissing : (requirements_for ct.risk_level).filter
      (fun kv => !pyTruthy (proof_data.lookup kv.1)) = [] := by
    rw [List.filter_eq_nil_iff]
    intro kv hkv
    simp [hcomplete kv hkv]
  rw [hhigh] at hmissing
  have heq : validate_completion s proof_data =
      (.pending, "â³ High-risk task requires human approval", s) := by
    rw [validate_completion_eq s ct proof_data hct]
    simp only [hhigh, hmissing, List.map_nil, List.isEmpty_nil, Bool.not_true,
      Bool.false_eq_true, if_false, if_true]
  rw [heq]
  exact ⟨rfl, rfl⟩

/-- C3 witness: the HIGH task with a complete HIGH-tier proof package
is left pending and the state is unchanged. -/
theorem validate_completion_high_frame_witness :
    (validate_completion highState highProof).1 = .pending ∧
    (validate_completion highState highProof).2.2 = highState :=
  validate_completion_high_frame highState highTask highProof rfl
    (by decide) (by decide)

/-- C6: if some required key for the current task's tier is absent or
falsy in the proof package, `validate_completion` rejects, leaves the
whole state (document and session fields) unchanged, and its message
contains the requirement description of every missing key. -/
theorem validate_completion_missing_proof (s : EnforcerState) (ct : CurrentTask)
    (proof_data : ProofData) (kv0 : String × String)
    (hct : s.current_task = some ct)
    (hkv0 : kv0 ∈ requirements_for ct.risk_level)
    (hmiss0 : pyTruthy (proof_data.lookup kv0.1) = false) :
    (validate_completion s proof_data).1 = .rejected ∧
    (validate_completion s proof_data).2.2 = s ∧
    (∀ kv ∈ requirements_for ct.risk_level,
      pyTruthy (proof_data.lookup kv.1) = false →
        pyIn kv.2 ((validate_completion s proof_data).2.1) = true) := by
  have hne : ((requirements_for ct.risk_level).filter
      (fun kv => !pyTruthy (proof_data.lookup kv.1))) ≠ [] := by
    intro hnil
    have hp0 : (!pyTruthy (proof_data.lookup kv0.1)) = true := by
      rw [hmiss0]
      rfl
    have hin : kv0 ∈ (requirements_for ct.risk_level).filter
        (fun kv => !pyTruthy (proof_data.lookup kv.1)) :=
      List.mem_filter.mpr ⟨hkv0, hp0⟩
    rw [hnil] at hin
    cases hin
  have hEmpty : (((requirements_for ct.risk_level).filter
      (fun kv => !pyTruthy (proof_data.lookup kv.1))).map
        (fun kv => kv.2)).isEmpty = false := by
    rw [List.isEmpty_eq_false]
    intro hmapnil
    exact hne (List.map_eq_nil_iff.mp hmapnil)
  have heq : validate_completion s proof_data =
      (.rejected,
        "âŒ Missing proof for: " ++ pyJoin ", "
          (((requirements_for ct.risk_level).filter
            (fun kv => !pyTruthy (proof_data.lookup kv.1))).map (fun kv => kv.2)),
        s) := by
    rw [validate_completion_eq s ct proof_data hct]
    simp only [hEmpty, Bool.not_false, if_true]
  rw [heq]
  refine ⟨rfl, rfl, ?_⟩
  intro kv hkv hfalse
  have hpkv : (!pyTruthy (proof_data.lookup kv.1)) = true := by
    rw [hfalse]
    rfl
  have hfkv : kv ∈ (requirements_for ct.risk_level).filter
      (fun kv => !pyTruthy (proof_data.lookup kv.1)) :=
    List.mem_filter.mpr ⟨hkv, hpkv⟩
  have hkvmem : kv.2 ∈ ((requirements_for ct.risk_level).filter
      (fun kv => !pyTruthy (proof_data.lookup kv.1))).map (fun kv => kv.2) :=
    List.mem_map.mpr ⟨kv, hfkv, rfl⟩
  exact pyIn_append_join _ _ _ _ hkvmem

/-- C6 witness: submitting an empty proof package for the LOW task is
rejected without a state change and the message carries the
`file_evidence` requirement description. -/
theorem validate_completion_missing_proof_witness :
    (validate_completion lowState []).1 = .rejected ∧
    (validate_completion lowState []).2.2 = lowState ∧
    pyIn "List all files created/modified with ls -la"
      ((validate_completion lowState []).2.1) = true := by
  have h := validate_completion_missing_proof lowState lowTask []
    (("file_evidence", "List all files created/modified with ls -la") : String × String)
    rfl (by decide) (by decide)
  exact ⟨h.1, h.2.1,
    h.2.2 ("file_evidence", "List all files created/modified with ls -la")
      (by decide) (by decide)⟩

/-- C8: starting from a document where a task identifier occurs
exactly once in `active_tasks` and not in `completed_tasks`, the
enforcer's operations preserve the at-most-one-occurrence invariant:
selection, work-log activation and action validation never touch the
document, and any `validate_completion` outcome leaves the identifier
with exactly one occurrence across the two sequences (completion moves
it, never duplicates it). -/
theorem registry_invariant_preserved (s : EnforcerState) (tid : String)
    (h1 : s.session.active_tasks.count tid = 1)
    (h2 : tid ∉ s.session.completed_tasks) :
    (∀ t now, ((set_current_task s t now).2).session = s.session) ∧
    ((start_work_log s).2).session = s.session ∧
    (∀ a j now, ((validate_action s a j now).2).session = s.session) ∧
    (∀ proof_data,
      ((validate_completion s proof_data).2.2).session.active_tasks.count tid
        + ((validate_completion s proof_data).2.2).session.completed_tasks.count tid
        = 1) := by
  have h2' : s.session.completed_tasks.count tid = 0 :=
    List.count_eq_zero_of_not_mem h2
  refine ⟨?_, ?_, ?_, ?_⟩
  · intro t now
    unfold set_current_task
    split
    · rfl
    · rfl
  · unfold start_work_log
    split
    · rfl
    · rfl
  · intro a j now
    unfold validate_action
    split
    · rfl
    · split
      · rfl
      · split
        · rfl
        · split
          · rfl
          · rfl
  · intro proof_data
    cases hct : s.current_task with
    | none =>
      have heq : validate_completion s proof_data
          = (.blocked, "No active task to complete", s) := by
        unfold validate_completion
        rw [hct]
      rw [heq]
      show s.session.active_tasks.count tid + s.session.completed_tasks.count tid = 1
      rw [h1, h2']
    | some ct =>
      rw [validate_completion_eq s ct proof_data hct]
      cases hm : (((requirements_for ct.risk_level).filter
          (fun kv => !pyTruthy (proof_data.lookup kv.1))).map (fun kv => kv.2)).isEmpty with
      | false =>
        simp only [Bool.not_false, if_true]
        show s.session.active_tasks.count tid + s.session.completed_tasks.count tid = 1
        rw [h1, h2']
      | true =>
        simp only [Bool.not_true, Bool.false_eq_true, if_false]
        by_cases hh : ct.risk_level = TaskRiskLevel.high
        · rw [if_pos hh]
          show s.session.active_tasks.count tid + s.session.completed_tasks.count tid = 1
          rw [h1, h2']
        · rw [if_neg hh]
          show (mark_task_complete s ct).session.active_tasks.count tid
            + (mark_task_complete s ct).session.completed_tasks.count tid = 1
          by_cases hcont : s.session.active_tasks.contains ct.id = true
          · have hactive : (mark_task_complete s ct).session.active_tasks
                = s.session.active_tasks.erase ct.id := by
              simp only [mark_task_complete, hcont, if_true]
            have hcompleted : (mark_task_complete s ct).session.completed_tasks
                = s.session.completed_tasks ++ [ct.id] := by
              simp only [mark_task_complete, hcont, if_true]
            rw [hactive, hcompleted, List.count_append]
            by_cases hid : tid = ct.id
            · subst hid
              rw [List.count_erase_self, h1, h2']
              simp [List.count_cons]
            · rw [List.count_erase_of_ne hid, h1, h2']
              simp [List.count_cons, hid]
          · have hsame : (mark_task_complete s ct).session = s.session := by
              simp only [mark_task_complete]
              rw [if_neg hcont]
            rw [hsame, h1, h2']

/-- C8 witness: instantiated on the sample document and the LOW task's
completion. -/
theorem registry_invariant_preserved_witness :
    ((set_current_task lowState "X" "t1").2).session = lowState.session ∧
    ((validate_completion lowState lowProof).2.2).session.active_tasks.count "T2: update docs"
      + ((validate_completion lowState lowProof).2.2).session.completed_tasks.count "T2: update docs"
      = 1 :=
  ⟨(registry_invariant_preserved lowState "T2: update docs" (by decide) (by decide)).1 "X" "t1",
   (registry_invariant_preserved lowState "T2: update docs" (by decide) (by decide)).2.2.2 lowProof⟩
